import Mathlib

/-!
Verification of the CloudMart cost-governance dashboard core
(`streamlit_dashboard.py`): dataset loading/normalization, tag-completeness
scoring, the metrics engine, the remediation merge loop, and CSV export.

Modelling notes.
* A pandas cell that may hold `NaN` is modelled as `Option`: `none` is an
  absent value (`NaN`), `some s` a present string.  `MonthlyCostUSD` is a
  numeric column; its values are modelled as `Option ℚ` (pandas floats are
  modelled as rationals; float rounding plays no role in the verified
  properties, which use only sums, comparisons and divisions of values
  appearing in the data).
* `read_csv(filepath, na_values=['', ' '])` is called with the default
  `keep_default_na=True`, so the supplied tokens are added to pandas'
  default NA token set (`STR_NA_VALUES`: `'NA'`, `'NaN'`, `'null'`, …).
  A raw textual cell equal to any of these tokens is normalized to `NaN`;
  this is `parseCell` over `naValues`.  None of the default tokens is
  whitespace-only, so among whitespace-only cells exactly `''` and `' '`
  load as absent.
* `drop_duplicates()` keeps the first occurrence of each duplicate row;
  this is `dropDuplicates`.
* The remediation merge of `show_remediation_page` (lines 342-353) copies
  the frame (`df.copy()`), then for each edited row overwrites, in every
  base row whose `ResourceID` equals the edited row's `ResourceID`, all ten
  columns of `edit_columns`, and finally recomputes the two derived
  completeness columns for every row.  A pandas scalar comparison with
  `NaN` is `False`, so a row with absent `ResourceID` matches nothing.
  The two dataframe variables (`df`, `remediated_df`) are modelled as an
  explicit environment so that the in-place `.loc` writes are visibly
  confined to the copy.
-/

namespace CloudMart

/-- The NA tokens of `read_csv(filepath, na_values=['', ' '])`: with the
default `keep_default_na=True`, the supplied tokens `''` and `' '` are added
to pandas' default NA token set `STR_NA_VALUES`. -/
def naValues : List String :=
  ["", " ", "#N/A", "#N/A N/A", "#NA", "-1.#IND", "-1.#QNAN", "-NaN", "-nan",
   "1.#IND", "1.#QNAN", "<NA>", "N/A", "NA", "NULL", "NaN", "None", "n/a", "nan", "null"]

/-- A string all of whose characters are whitespace (the empty string
included). -/
def isWhitespaceOnly (s : String) : Bool :=
  s.data.all Char.isWhitespace

/-- Normalization applied by `read_csv` to a textual cell: a cell equal to one
of the `na_values` tokens becomes absent (`NaN`), anything else is kept. -/
def parseCell (s : String) : Option String :=
  if s ∈ naValues then none else some s

/-- One row of the loaded dataframe.  The ten data columns of the input schema
plus the two derived completeness columns. -/
@[ext]
structure Row where
  resourceID : Option String
  service : Option String
  region : Option String
  monthlyCost : Option ℚ
  tagged : Option String
  department : Option String
  project : Option String
  environment : Option String
  owner : Option String
  costCenter : Option String
  score : ℕ
  pct : ℚ
deriving DecidableEq, Repr

/-- The five governance tag fields of a row, in the order of
`tag_fields = ['Department', 'Project', 'Environment', 'Owner', 'CostCenter']`. -/
def tagFieldValues (r : Row) : List (Option String) :=
  [r.department, r.project, r.environment, r.owner, r.costCenter]

/-- `df[tag_fields].notna().sum(axis=1)` for one row: the number of present
tag fields. -/
def countPresent (r : Row) : ℕ :=
  (tagFieldValues r).countP (fun o => o.isSome)

/-- Recompute the two derived columns of one row:
`TagCompletenessScore` and `TagCompletenessPercentage`. -/
def recomputeScore (r : Row) : Row :=
  { r with score := countPresent r, pct := (countPresent r : ℚ) / 5 * 100 }

/-- Recompute the derived columns for every row of a frame. -/
def recomputeScores (df : List Row) : List Row :=
  df.map recomputeScore

/-- `drop_duplicates()` keeping the first occurrence, helper. -/
def dropDupAux {α : Type} [DecidableEq α] (seen : List α) : List α → List α
  | [] => []
  | x :: xs => if x ∈ seen then dropDupAux seen xs else x :: dropDupAux (x :: seen) xs

/-- pandas `DataFrame.drop_duplicates()`: removes later exact full-row
duplicates, keeping the first occurrence in order. -/
def dropDuplicates {α : Type} [DecidableEq α] (l : List α) : List α :=
  dropDupAux [] l

/-- One raw CSV record over the full input schema: textual cells for the
string columns, a numeric cell (empty or a number) for `MonthlyCostUSD`. -/
structure RawRow where
  resourceID : String
  service : String
  region : String
  monthlyCost : Option ℚ
  tagged : String
  department : String
  project : String
  environment : String
  owner : String
  costCenter : String
deriving DecidableEq, Repr

/-- `read_csv` on one record: every textual cell goes through the NA
normalization; the derived columns do not exist yet (they are assigned
afterwards, modelled here as the placeholder value 0). -/
def parseRawRow (r : RawRow) : Row :=
  { resourceID := parseCell r.resourceID
    service := parseCell r.service
    region := parseCell r.region
    monthlyCost := r.monthlyCost
    tagged := parseCell r.tagged
    department := parseCell r.department
    project := parseCell r.project
    environment := parseCell r.environment
    owner := parseCell r.owner
    costCenter := parseCell r.costCenter
    score := 0
    pct := 0 }

/-- `load_data` (lines 21-34) on structured records: read with NA conversion,
drop exact duplicate rows, then compute the completeness columns. -/
def load_data (rows : List RawRow) : List Row :=
  recomputeScores (dropDuplicates (rows.map parseRawRow))

/-- `to_csv` rendering of one cell: an absent value becomes the empty cell. -/
def exportCell : Option String → String
  | none => ""
  | some s => s

/-- `to_csv` rendering of one row back to the input schema.  (The real file
also writes the two derived columns; they are functions of the tag fields,
so they never distinguish two otherwise-equal rows and are recomputed and
overwritten by the next `load_data`, hence they are dropped here.) -/
def exportRow (r : Row) : RawRow :=
  { resourceID := exportCell r.resourceID
    service := exportCell r.service
    region := exportCell r.region
    monthlyCost := r.monthlyCost
    tagged := exportCell r.tagged
    department := exportCell r.department
    project := exportCell r.project
    environment := exportCell r.environment
    owner := exportCell r.owner
    costCenter := exportCell r.costCenter }

/-- `remediated_df.to_csv(csv_buffer, index=False)` (lines 417-419). -/
def export_csv (df : List Row) : List RawRow :=
  df.map exportRow

/-! ### Header-generic loader

`load_data` accesses the frame only through `df[tag_fields]`; the required
input columns (`ResourceID`, `MonthlyCostUSD`, `Tagged`, `Service`,
`Region`) are never looked at by the loader.  To reason about inputs whose
headers may lack columns, the raw table is also modelled generically as a
header list plus rows of textual cells. -/

/-- `tag_fields = ['Department', 'Project', 'Environment', 'Owner', 'CostCenter']`. -/
def tag_fields : List String :=
  ["Department", "Project", "Environment", "Owner", "CostCenter"]

/-- The five required input columns named by the specification. -/
def required_columns : List String :=
  ["ResourceID", "MonthlyCostUSD", "Tagged", "Service", "Region"]

/-- A raw tabular input: the header row and the data rows (textual cells). -/
structure GenericTable where
  headers : List String
  rows : List (List String)
deriving DecidableEq, Repr

/-- One row of a generically-loaded frame: the parsed cells in header order
plus the two derived completeness columns. -/
structure GRow where
  cells : List (Option String)
  score : ℕ
  pct : ℚ
deriving DecidableEq, Repr

/-- A loaded frame: the headers it was read with and its rows. -/
structure GFrame where
  headers : List String
  rows : List GRow
deriving DecidableEq, Repr

/-- The cell of column `h` in a parsed row (absent when the column is missing
from the headers or the row is short). -/
def cellAt (headers : List String) (cells : List (Option String)) (h : String) : Option String :=
  (cells.get? (headers.indexOf h)).join

/-- `df[tag_fields].notna().sum(axis=1)` for a generically-parsed row. -/
def gScore (headers : List String) (cells : List (Option String)) : ℕ :=
  (tag_fields.map (cellAt headers cells)).countP (fun o => o.isSome)

/-- `load_data` over a generic raw table.  `read_csv` parses whatever headers
are present; `df[tag_fields]` raises a `KeyError` when a tag-field column is
absent; no other column's presence is checked anywhere in `load_data`. -/
def load_data_generic (t : GenericTable) : Except String GFrame :=
  if tag_fields.all (fun f => t.headers.contains f) then
    let parsed := t.rows.map (fun row => row.map parseCell)
    let deduped := dropDuplicates parsed
    .ok { headers := t.headers
          rows := deduped.map (fun cs =>
            { cells := cs
              score := gScore t.headers cs
              pct := (gScore t.headers cs : ℚ) / 5 * 100 }) }
  else
    .error "KeyError"

/-- Whether an `Except` result is a success. -/
def isOkE {ε α : Type} : Except ε α → Bool
  | .ok _ => true
  | .error _ => false

/-! ### Metrics engine (`calculate_metrics`, lines 95-117) -/

/-- A row's cost contribution: pandas `.sum()` skips `NaN`, so an absent
cost contributes 0. -/
def costOf (r : Row) : ℚ :=
  r.monthlyCost.getD 0

/-- The dictionary returned by `calculate_metrics`.  `avg_completeness` is
`none` when the frame is empty (pandas `.mean()` of an empty column is
`NaN`). -/
structure Metrics where
  total_resources : ℕ
  tagged_resources : ℕ
  untagged_resources : ℕ
  tagging_rate : ℚ
  total_cost : ℚ
  tagged_cost : ℚ
  untagged_cost : ℚ
  untagged_cost_pct : ℚ
  avg_completeness : Option ℚ
deriving Repr

/-- `calculate_metrics` (lines 95-117). -/
def calculate_metrics (df : List Row) : Metrics :=
  let total_resources := df.length
  let tagged_resources := (df.filter (fun r => r.tagged == some "Yes")).length
  let untagged_resources := (df.filter (fun r => r.tagged == some "No")).length
  let total_cost := (df.map costOf).sum
  let tagged_cost := ((df.filter (fun r => r.tagged == some "Yes")).map costOf).sum
  let untagged_cost := ((df.filter (fun r => r.tagged == some "No")).map costOf).sum
  { total_resources := total_resources
    tagged_resources := tagged_resources
    untagged_resources := untagged_resources
    tagging_rate := if total_resources > 0 then (tagged_resources : ℚ) / (total_resources : ℚ) * 100 else 0
    total_cost := total_cost
    tagged_cost := tagged_cost
    untagged_cost := untagged_cost
    untagged_cost_pct := if total_cost > 0 then untagged_cost / total_cost * 100 else 0
    avg_completeness :=
      if total_resources = 0 then none
      else some ((df.map (fun r => (r.score : ℚ))).sum / (total_resources : ℚ)) }

/-! ### Remediation merge (`show_remediation_page`, lines 342-353) -/

/-- One row of the edited table returned by the data editor: exactly the ten
`edit_columns`. -/
structure EditRow where
  resourceID : Option String
  service : Option String
  region : Option String
  monthlyCost : Option ℚ
  tagged : Option String
  department : Option String
  project : Option String
  environment : Option String
  owner : Option String
  costCenter : Option String
deriving DecidableEq, Repr

/-- `mask = remediated_df['ResourceID'] == row['ResourceID']` for one base
row: a pandas comparison with `NaN` is `False`, so the mask holds exactly
when both identifiers are present and equal. -/
def idMatches (r : Row) (e : EditRow) : Bool :=
  match r.resourceID, e.resourceID with
  | some a, some b => a == b
  | _, _ => false

/-- The effect of the inner column loop on one masked row: every column of
`edit_columns` (`ResourceID`, `Service`, `Region`, `Department`, `Project`,
`Environment`, `Owner`, `CostCenter`, `MonthlyCostUSD`, `Tagged`) is
overwritten with the edited row's value; the derived columns are not in
`edit_columns` and are left alone (they are recomputed afterwards). -/
def overwriteCols (r : Row) (e : EditRow) : Row :=
  { r with
    resourceID := e.resourceID
    service := e.service
    region := e.region
    monthlyCost := e.monthlyCost
    tagged := e.tagged
    department := e.department
    project := e.project
    environment := e.environment
    owner := e.owner
    costCenter := e.costCenter }

/-- The effect of one edited row on one base row: overwrite when the
`ResourceID` mask holds, otherwise leave the row alone. -/
def applyEditRow (r : Row) (e : EditRow) : Row :=
  if idMatches r e then overwriteCols r e else r

/-- The effect of one iteration of `for idx, row in edited_df.iterrows()` on
the whole working frame: the masked `.loc` write touches every matching row. -/
def applyEditToFrame (frame : List Row) (e : EditRow) : List Row :=
  frame.map (fun r => applyEditRow r e)

/-- The cumulative effect of a list of edited rows on a single row. -/
def applyEditsRow (edits : List EditRow) (r : Row) : Row :=
  edits.foldl applyEditRow r

/-- The two dataframe variables live in `show_remediation_page` while the
merge runs: the base frame `df` and the working copy `remediated_df`. -/
structure RemediationEnv where
  df : List Row
  remediated_df : List Row
deriving Repr

/-- The `for idx, row in edited_df.iterrows()` loop: each iteration mutates
only `remediated_df` (the masked `.loc` assignment); `df` is never written. -/
def mergeLoop (env : RemediationEnv) (edits : List EditRow) : RemediationEnv :=
  edits.foldl (fun env e => { env with remediated_df := applyEditToFrame env.remediated_df e }) env

/-- The merge portion of `show_remediation_page` (lines 342-353):
`remediated_df = df.copy()` (an independent deep copy), the edit loop, then
the dataset-wide recomputation of the completeness columns. -/
def show_remediation_merge (df : List Row) (edits : List EditRow) : RemediationEnv :=
  let env0 : RemediationEnv := { df := df, remediated_df := df }
  let env1 := mergeLoop env0 edits
  { env1 with remediated_df := recomputeScores env1.remediated_df }

/-- The merged dataset produced by the remediation page. -/
def mergeRemediation (df : List Row) (edits : List EditRow) : List Row :=
  (show_remediation_merge df edits).remediated_df

/-! ### Concrete sample data used by witnesses and counterexamples -/

/-- A loaded untagged resource with no tag fields. -/
def rowR1 : Row :=
  { resourceID := some "R1", service := some "EC2", region := some "us-east-1"
    monthlyCost := some 100, tagged := some "No"
    department := none, project := none, environment := none
    owner := none, costCenter := none, score := 0, pct := 0 }

/-- A loaded tagged resource with one tag field present. -/
def rowR2 : Row :=
  { resourceID := some "R2", service := some "S3", region := some "eu-west-1"
    monthlyCost := some 50, tagged := some "Yes"
    department := some "Eng", project := none, environment := none
    owner := none, costCenter := none, score := 1, pct := 20 }

/-- An edit of `rowR1` that fills every tag field and keeps the read-only
columns at their base values (what the disabled editor columns guarantee). -/
def editFull : EditRow :=
  { resourceID := some "R1", service := some "EC2", region := some "us-east-1"
    monthlyCost := some 100, tagged := some "Yes"
    department := some "Eng", project := some "X", environment := some "Prod"
    owner := some "Bob", costCenter := some "CC1" }

/-- An edit of `rowR1` whose read-only `Service` column carries a value
different from the base row's. -/
def editServiceChange : EditRow :=
  { editFull with service := some "S3" }

/-- An edit of `rowR1` carrying enum values outside the editor's option
sets: `Environment = "Staging"`, `Tagged = "Maybe"`. -/
def editInvalidEnum : EditRow :=
  { editFull with environment := some "Staging", tagged := some "Maybe" }

/-- An edit of `rowR1` whose `Department` is the single-space string (an NA
token of the loader). -/
def editSpaceDept : EditRow :=
  { editFull with department := some " " }

/-- The row `rowR1` after applying `editFull` and recomputing completeness. -/
def rowR1Remediated : Row :=
  { resourceID := some "R1", service := some "EC2", region := some "us-east-1"
    monthlyCost := some 100, tagged := some "Yes"
    department := some "Eng", project := some "X", environment := some "Prod"
    owner := some "Bob", costCenter := some "CC1", score := 5, pct := 100 }

/-- A raw CSV record for `rowR1`: blank tag cells. -/
def rawR1 : RawRow :=
  { resourceID := "R1", service := "EC2", region := "us-east-1"
    monthlyCost := some 100, tagged := "No"
    department := "", project := "", environment := "", owner := "", costCenter := "" }

/-- A raw CSV record whose `Department` cell is two spaces (whitespace-only
but not one of the reader's NA tokens). -/
def rawWS : RawRow :=
  { rawR1 with department := "  " }

/-- The loaded form of `rawWS`: the two-space department survives as a
present value and is counted by the completeness score. -/
def rowLoadWS : Row :=
  { rowR1 with department := some "  ", score := 1, pct := 20 }

/-- A raw input table whose headers lack the required `ResourceID` column
(all five tag-field columns are present). -/
def tableNoResourceID : GenericTable :=
  { headers := ["Service", "Region", "MonthlyCostUSD", "Tagged",
                "Department", "Project", "Environment", "Owner", "CostCenter"]
    rows := [["EC2", "us-east-1", "100", "No", "", "", "", "", ""]] }

/-! ### Structural lemmas about the merge -/

/-- The edit loop never writes the base frame variable. -/
lemma mergeLoop_df (edits : List EditRow) :
    ∀ env : RemediationEnv, (mergeLoop env edits).df = env.df := by
  induction edits with
  | nil => intro env; rfl
  | cons e es ih =>
      intro env
      show (mergeLoop { env with remediated_df := applyEditToFrame env.remediated_df e } es).df = env.df
      rw [ih]

/-- The working frame after the loop is the fold of the per-edit frame maps. -/
lemma mergeLoop_remediated (edits : List EditRow) :
    ∀ env : RemediationEnv,
      (mergeLoop env edits).remediated_df = edits.foldl applyEditToFrame env.remediated_df := by
  induction edits with
  | nil => intro env; rfl
  | cons e es ih =>
      intro env
      show (mergeLoop { env with remediated_df := applyEditToFrame env.remediated_df e } es).remediated_df = _
      rw [ih]
      rfl

/-- Folding frame-wide edits is a row-wise map of the folded per-row edits. -/
lemma foldl_applyEditToFrame (edits : List EditRow) :
    ∀ frame : List Row, edits.foldl applyEditToFrame frame = frame.map (fun r => applyEditsRow edits r) := by
  induction edits with
  | nil => intro frame; simp [applyEditsRow]
  | cons e es ih =>
      intro frame
      show es.foldl applyEditToFrame (applyEditToFrame frame e) = _
      rw [ih]
      simp only [applyEditToFrame, List.map_map]
      rfl

/-- The merged dataset, row by row: each base row receives all its matching
edits in order and then has its completeness columns recomputed. -/
lemma mergeRemediation_eq_map (df : List Row) (edits : List EditRow) :
    mergeRemediation df edits = df.map (fun r => recomputeScore (applyEditsRow edits r)) := by
  show recomputeScores (mergeLoop { df := df, remediated_df := df } edits).remediated_df = _
  rw [mergeLoop_remediated, foldl_applyEditToFrame]
  simp only [recomputeScores, List.map_map]
  rfl

/-- A single edit never changes a row's `ResourceID`: unmatched rows are
untouched, and a matched row receives the identifier it already has. -/
lemma applyEditRow_keepsID (r : Row) (e : EditRow) :
    (applyEditRow r e).resourceID = r.resourceID := by
  unfold applyEditRow
  cases hm : idMatches r e with
  | false => simp
  | true =>
      unfold idMatches at hm
      cases hr : r.resourceID with
      | none => simp [hr] at hm
      | some a =>
          cases he : e.resourceID with
          | none => simp [hr, he] at hm
          | some b =>
              simp only [hr, he, beq_iff_eq] at hm
              simp [overwriteCols, he, hr, hm]

/-- The `ResourceID` mask depends only on the row's identifier. -/
lemma idMatches_congr (r r' : Row) (e : EditRow) (h : r'.resourceID = r.resourceID) :
    idMatches r' e = idMatches r e := by
  unfold idMatches
  rw [h]

/-- A whole list of edits never changes a row's `ResourceID`. -/
lemma applyEditsRow_keepsID (edits : List EditRow) :
    ∀ r : Row, (applyEditsRow edits r).resourceID = r.resourceID := by
  induction edits with
  | nil => intro r; rfl
  | cons e es ih =>
      intro r
      show (applyEditsRow es (applyEditRow r e)).resourceID = r.resourceID
      rw [ih, applyEditRow_keepsID]

lemma recomputeScore_resourceID (r : Row) : (recomputeScore r).resourceID = r.resourceID := rfl

lemma recomputeScore_service (r : Row) : (recomputeScore r).service = r.service := rfl

lemma recomputeScore_region (r : Row) : (recomputeScore r).region = r.region := rfl

lemma recomputeScore_monthlyCost (r : Row) : (recomputeScore r).monthlyCost = r.monthlyCost := rfl

lemma recomputeScore_tagged (r : Row) : (recomputeScore r).tagged = r.tagged := rfl

lemma recomputeScore_environment (r : Row) : (recomputeScore r).environment = r.environment := rfl

/-! ### Counting and summing lemmas for the metrics engine -/

/-- Two row-disjoint filters together select at most the whole list. -/
lemma length_filter_disjoint_le (p q : Row → Bool)
    (hpq : ∀ r : Row, ¬(p r = true ∧ q r = true)) :
    ∀ l : List Row, (l.filter p).length + (l.filter q).length ≤ l.length := by
  intro l
  induction l with
  | nil => simp
  | cons a t ih =>
      cases hp : p a with
      | true =>
          have hq : q a = false := by
            cases hqa : q a with
            | false => rfl
            | true => exact absurd ⟨hp, hqa⟩ (hpq a)
          simp [List.filter_cons, hp, hq]
          omega
      | false =>
          cases hq : q a with
          | true =>
              simp [List.filter_cons, hp, hq]
              omega
          | false =>
              simp [List.filter_cons, hp, hq]
              omega

/-- With non-negative per-row costs, two row-disjoint filtered cost sums are
bounded by the full cost sum. -/
lemma sum_filter_disjoint_le (p q : Row → Bool)
    (hpq : ∀ r : Row, ¬(p r = true ∧ q r = true)) :
    ∀ l : List Row, (∀ r ∈ l, 0 ≤ costOf r) →
      ((l.filter p).map costOf).sum + ((l.filter q).map costOf).sum ≤ (l.map costOf).sum := by
  intro l
  induction l with
  | nil => simp
  | cons a t ih =>
      intro hc
      have ha : 0 ≤ costOf a := hc a (List.mem_cons_self a t)
      have iht := ih (fun r hr => hc r (List.mem_cons_of_mem a hr))
      cases hp : p a with
      | true =>
          have hq : q a = false := by
            cases hqa : q a with
            | false => rfl
            | true => exact absurd ⟨hp, hqa⟩ (hpq a)
          simp [List.filter_cons, hp, hq]
          linarith
      | false =>
          cases hq : q a with
          | true =>
              simp [List.filter_cons, hp, hq]
              linarith
          | false =>
              simp [List.filter_cons, hp, hq]
              linarith

/-- The `Tagged == 'Yes'` and `Tagged == 'No'` row predicates never hold of
the same row. -/
lemma tagged_yes_no_disjoint :
    ∀ r : Row, ¬((r.tagged == some "Yes") = true ∧ (r.tagged == some "No") = true) := by
  intro r h
  obtain ⟨h1, h2⟩ := h
  rw [beq_iff_eq] at h1 h2
  rw [h1] at h2
  exact absurd h2 (by decide)

/-! ### Claims -/

/-- C9: the remediation merge is non-destructive.  The merge loop operates on
`remediated_df = df.copy()` (an independent copy) and its masked `.loc`
writes touch only that copy, so after the whole merge the base frame
variable `df` still holds exactly its pre-merge rows and fields. -/
theorem C9_merge_nondestructive (df : List Row) (edits : List EditRow) :
    (show_remediation_merge df edits).df = df := by
  show (mergeLoop { df := df, remediated_df := df } edits).df = df
  rw [mergeLoop_df]

/-- C4: on the empty dataset, `calculate_metrics` returns
`tagging_rate = 0` and `untagged_cost_pct = 0`: both divisions are guarded
(`if total_resources > 0`, `if total_cost > 0`), so no division by zero is
performed and no NaN is produced for these two fields. -/
theorem C4_empty_metrics :
    (calculate_metrics []).tagging_rate = 0 ∧ (calculate_metrics []).untagged_cost_pct = 0 :=
  ⟨rfl, rfl⟩

/-- C5: for every dataset, `tagged_resources + untagged_resources ≤
total_resources`: the two counters select exactly the rows whose `Tagged`
is the string `Yes` respectively `No`, and a row with any other `Tagged`
value (absent included) is counted by neither. -/
theorem C5_tagged_untagged_le_total (df : List Row) :
    (calculate_metrics df).tagged_resources + (calculate_metrics df).untagged_resources
      ≤ (calculate_metrics df).total_resources :=
  length_filter_disjoint_le (fun r => r.tagged == some "Yes") (fun r => r.tagged == some "No")
    tagged_yes_no_disjoint df

/-- C10: when every row's monthly cost is non-negative,
`tagged_cost + untagged_cost ≤ total_cost`: the total sums over all rows
while the two partial sums range over the disjoint `Tagged = Yes` and
`Tagged = No` subsets. -/
theorem C10_cost_partition (df : List Row) (h : ∀ r ∈ df, 0 ≤ costOf r) :
    (calculate_metrics df).tagged_cost + (calculate_metrics df).untagged_cost
      ≤ (calculate_metrics df).total_cost :=
  sum_filter_disjoint_le (fun r => r.tagged == some "Yes") (fun r => r.tagged == some "No")
    tagged_yes_no_disjoint df h

/-- When every edit that matches a row carries the row's own `Service`,
`Region` and `MonthlyCostUSD` values (what the disabled editor columns
guarantee), those three columns of the row survive the whole edit fold. -/
lemma applyEditsRow_keeps_readonly (edits : List EditRow) :
    ∀ r : Row,
      (∀ e ∈ edits, idMatches r e = true →
        e.service = r.service ∧ e.region = r.region ∧ e.monthlyCost = r.monthlyCost) →
      (applyEditsRow edits r).service = r.service
      ∧ (applyEditsRow edits r).region = r.region
      ∧ (applyEditsRow edits r).monthlyCost = r.monthlyCost := by
  induction edits with
  | nil => intro r _; exact ⟨rfl, rfl, rfl⟩
  | cons e es ih =>
      intro r h
      have step : (applyEditRow r e).service = r.service
          ∧ (applyEditRow r e).region = r.region
          ∧ (applyEditRow r e).monthlyCost = r.monthlyCost := by
        unfold applyEditRow
        cases hm : idMatches r e with
        | false => simp
        | true =>
            obtain ⟨h1, h2, h3⟩ := h e (List.mem_cons_self e es) hm
            simp [overwriteCols, h1, h2, h3]
      have hnext : ∀ e' ∈ es, idMatches (applyEditRow r e) e' = true →
          e'.service = (applyEditRow r e).service
          ∧ e'.region = (applyEditRow r e).region
          ∧ e'.monthlyCost = (applyEditRow r e).monthlyCost := by
        intro e' he' hm'
        rw [idMatches_congr r (applyEditRow r e) e' (applyEditRow_keepsID r e)] at hm'
        obtain ⟨a, b, c⟩ := h e' (List.mem_cons_of_mem e he') hm'
        exact ⟨by rw [step.1]; exact a, by rw [step.2.1]; exact b, by rw [step.2.2]; exact c⟩
      obtain ⟨s1, s2, s3⟩ := ih (applyEditRow r e) hnext
      exact ⟨s1.trans step.1, s2.trans step.2.1, s3.trans step.2.2⟩

/-- C3: every row of the merged dataset has `TagCompletenessScore` equal to
the number of present values among its `Department`, `Project`,
`Environment`, `Owner` and `CostCenter` fields — the merge recomputes the
score for every row of the merged dataset after all overwrites, not only
for the edited ones. -/
theorem C3_score_recomputed (base : List Row) (edits : List EditRow) (r : Row)
    (h : r ∈ mergeRemediation base edits) : r.score = countPresent r := by
  rw [mergeRemediation_eq_map] at h
  obtain ⟨r0, _, rfl⟩ := List.mem_map.mp h
  rfl

/-- Concrete evaluation: merging `rowR1` with the full edit yields exactly
the fully-tagged remediated row. -/
lemma evalMergeFull : mergeRemediation [rowR1] [editFull] = [rowR1Remediated] := by
  simp +decide [mergeRemediation, show_remediation_merge, mergeLoop, applyEditToFrame, applyEditRow,
    idMatches, overwriteCols, recomputeScores, recomputeScore, countPresent, tagFieldValues,
    rowR1, editFull, rowR1Remediated, List.countP_cons, List.countP_nil]
  try norm_num

/-- C3 witness: the recomputed-score equation at the concrete merged row
produced by editing `rowR1` with `editFull`. -/
theorem C3_score_recomputed_witness : rowR1Remediated.score = countPresent rowR1Remediated :=
  C3_score_recomputed [rowR1] [editFull] rowR1Remediated
    (by rw [evalMergeFull]; exact List.mem_singleton.mpr rfl)

/-- C1 counterexample: the merge does not protect the read-only columns.
Editing `R1` with a row whose `Service` is `S3` (the base says `EC2`)
produces a merged dataset whose `Service` column differs from the base's,
refuting the claim that `Service` values of merged rows always equal those
of the corresponding base rows. -/
theorem C1_readonly_columns_cex :
    (mergeRemediation [rowR1] [editServiceChange]).map Row.service ≠ [rowR1].map Row.service := by
  decide

/-- C1 (amended): the merge copies every column of `edit_columns` from the
edited row, so `ResourceID` is always preserved (the matched rows already
carry the edited identifier), while `Service`, `Region` and
`MonthlyCostUSD` of the merged rows equal those of the corresponding base
rows only when every matching edit carries the base row's own values for
them — which the disabled editor columns, not the merge engine, guarantee. -/
theorem C1_readonly_columns_amended (base : List Row) (edits : List EditRow) :
    (mergeRemediation base edits).map Row.resourceID = base.map Row.resourceID
    ∧ ((∀ r ∈ base, ∀ e ∈ edits, idMatches r e = true →
          e.service = r.service ∧ e.region = r.region ∧ e.monthlyCost = r.monthlyCost) →
        (mergeRemediation base edits).map Row.service = base.map Row.service
        ∧ (mergeRemediation base edits).map Row.region = base.map Row.region
        ∧ (mergeRemediation base edits).map Row.monthlyCost = base.map Row.monthlyCost) := by
  constructor
  · rw [mergeRemediation_eq_map, List.map_map]
    refine List.map_congr_left ?_
    intro r _
    show (recomputeScore (applyEditsRow edits r)).resourceID = r.resourceID
    rw [recomputeScore_resourceID, applyEditsRow_keepsID]
  · intro h
    refine ⟨?_, ?_, ?_⟩ <;>
      · rw [mergeRemediation_eq_map, List.map_map]
        refine List.map_congr_left ?_
        intro r hr
        have hk := applyEditsRow_keeps_readonly edits r (h r hr)
        simp only [Function.comp_apply, recomputeScore_service, recomputeScore_region,
          recomputeScore_monthlyCost, hk.1, hk.2.1, hk.2.2]

/-- C1 witness: with an edit that keeps the read-only columns at the base
values, all four columns of the merged dataset match the base. -/
theorem C1_readonly_columns_witness :
    (mergeRemediation [rowR1] [editFull]).map Row.resourceID = [rowR1].map Row.resourceID
    ∧ ((mergeRemediation [rowR1] [editFull]).map Row.service = [rowR1].map Row.service
       ∧ (mergeRemediation [rowR1] [editFull]).map Row.region = [rowR1].map Row.region
       ∧ (mergeRemediation [rowR1] [editFull]).map Row.monthlyCost = [rowR1].map Row.monthlyCost) :=
  ⟨(C1_readonly_columns_amended [rowR1] [editFull]).1,
   (C1_readonly_columns_amended [rowR1] [editFull]).2 (by decide)⟩

/-- C2 counterexample: the merge performs no enum validation.  An edited row
with `Environment = "Staging"` (outside `{Prod, Dev, Test}`) and
`Tagged = "Maybe"` (outside `{Yes, No}`) is merged without any error and
both invalid values are stored in the merged dataset, refuting the claim
that such an edit is rejected with a `ValidationError` before merging. -/
theorem C2_validation_cex :
    (mergeRemediation [rowR1] [editInvalidEnum]).map Row.environment = [some "Staging"]
    ∧ (mergeRemediation [rowR1] [editInvalidEnum]).map Row.tagged = [some "Maybe"] := by
  decide

/-- C2 (amended): the merge engine stores the edited `Environment` and
`Tagged` values verbatim in every matching row, whatever they are; no
`ValidationError` (or any rejection) exists in the engine — the enum
constraints live only in the editor's widget configuration. -/
theorem C2_validation_amended (base : List Row) (e : EditRow) (i : ℕ) (r : Row)
    (h : base[i]? = some r) (hm : idMatches r e = true) :
    (mergeRemediation base [e])[i]?.map Row.environment = some e.environment
    ∧ (mergeRemediation base [e])[i]?.map Row.tagged = some e.tagged := by
  rw [mergeRemediation_eq_map, List.getElem?_map, h]
  have hstep : applyEditsRow [e] r = overwriteCols r e := by
    simp [applyEditsRow, applyEditRow, hm]
  simp only [Option.map_some']
  rw [hstep]
  exact ⟨rfl, rfl⟩

/-- C2 witness: the amended claim at the concrete invalid edit, storing
`Staging` and `Maybe` verbatim. -/
theorem C2_validation_witness :
    (mergeRemediation [rowR1] [editInvalidEnum])[0]?.map Row.environment
        = some editInvalidEnum.environment
    ∧ (mergeRemediation [rowR1] [editInvalidEnum])[0]?.map Row.tagged
        = some editInvalidEnum.tagged :=
  C2_validation_amended [rowR1] editInvalidEnum 0 rowR1 rfl (by decide)

/-- C10 witness: the bound at a concrete two-row dataset with non-negative
costs. -/
theorem C10_cost_partition_witness :
    (calculate_metrics [rowR1, rowR2]).tagged_cost + (calculate_metrics [rowR1, rowR2]).untagged_cost
      ≤ (calculate_metrics [rowR1, rowR2]).total_cost :=
  C10_cost_partition [rowR1, rowR2] (by decide)

/-! ### Loader claims -/

/-- A textual cell is normalized to absent exactly when it is one of the
reader's NA tokens. -/
lemma parseCell_eq_none_iff (s : String) : parseCell s = none ↔ s ∈ naValues := by
  unfold parseCell
  by_cases h : s ∈ naValues
  · simp [h]
  · simp [h]

/-- Among whitespace-only strings, only the empty string and the single
space are NA tokens: every default pandas token contains a non-whitespace
character. -/
lemma whitespace_na_token : ∀ s ∈ naValues, isWhitespaceOnly s = true → s = "" ∨ s = " " := by
  decide

/-- Every row the loader produces carries a completeness score equal to the
number of its present tag fields. -/
lemma load_data_score (rows : List RawRow) (r : Row) (h : r ∈ load_data rows) :
    r.score = countPresent r := by
  unfold load_data recomputeScores at h
  obtain ⟨r0, _, rfl⟩ := List.mem_map.mp h
  rfl

/-- Concrete evaluation: loading the record whose `Department` cell is two
spaces keeps that cell as a present value and scores it. -/
lemma evalLoadWS : load_data [rawWS] = [rowLoadWS] := by
  simp +decide [load_data, recomputeScores, recomputeScore, dropDuplicates, dropDupAux,
    parseRawRow, parseCell, naValues, countPresent, tagFieldValues,
    rawWS, rawR1, rowLoadWS, rowR1, List.countP_cons, List.countP_nil]
  try norm_num

/-- C6 counterexample: a whitespace-only cell that is not one of the two NA
tokens survives the load as a present value.  The record whose `Department`
cell is the two-space string loads to a row with `department = "  "` present
and completeness score 1, refuting the claim that every whitespace-only cell
is treated as absent and never counts in the score. -/
theorem C6_absent_cells_cex :
    (load_data [rawWS]).map Row.department = [some "  "]
    ∧ (load_data [rawWS]).map Row.score = [1] := by
  decide

/-- C6 (amended): the loader treats a cell as absent exactly when it is one
of the reader's NA tokens — the supplied `''` and `' '` plus pandas' default
tokens (`'NA'`, `'NaN'`, `'null'`, …, none of them whitespace-only); every
other cell, in particular any other whitespace-only cell, stays present, and
every loaded row's completeness score counts exactly its present tag
fields. -/
theorem C6_absent_cells_amended (raw : RawRow) (rows : List RawRow) (r : Row)
    (h : r ∈ load_data rows) :
    ((parseRawRow raw).department = none ↔ raw.department ∈ naValues)
    ∧ ((parseRawRow raw).project = none ↔ raw.project ∈ naValues)
    ∧ ((parseRawRow raw).environment = none ↔ raw.environment ∈ naValues)
    ∧ ((parseRawRow raw).owner = none ↔ raw.owner ∈ naValues)
    ∧ ((parseRawRow raw).costCenter = none ↔ raw.costCenter ∈ naValues)
    ∧ (∀ s ∈ naValues, isWhitespaceOnly s = true → s = "" ∨ s = " ")
    ∧ r.score = countPresent r :=
  ⟨parseCell_eq_none_iff raw.department, parseCell_eq_none_iff raw.project,
   parseCell_eq_none_iff raw.environment, parseCell_eq_none_iff raw.owner,
   parseCell_eq_none_iff raw.costCenter, whitespace_na_token, load_data_score rows r h⟩

/-- C6 witness: the amended claim at the two-space record and its loaded row. -/
theorem C6_absent_cells_witness :
    ((parseRawRow rawWS).department = none ↔ rawWS.department ∈ naValues)
    ∧ ((parseRawRow rawWS).project = none ↔ rawWS.project ∈ naValues)
    ∧ ((parseRawRow rawWS).environment = none ↔ rawWS.environment ∈ naValues)
    ∧ ((parseRawRow rawWS).owner = none ↔ rawWS.owner ∈ naValues)
    ∧ ((parseRawRow rawWS).costCenter = none ↔ rawWS.costCenter ∈ naValues)
    ∧ (∀ s ∈ naValues, isWhitespaceOnly s = true → s = "" ∨ s = " ")
    ∧ rowLoadWS.score = countPresent rowLoadWS :=
  C6_absent_cells_amended rawWS [rawWS] rowLoadWS
    (by rw [evalLoadWS]; exact List.mem_singleton.mpr rfl)

/-- C7 counterexample: the loader does not check the required columns.  An
input whose headers lack `ResourceID` (while the five tag-field columns are
present) loads successfully and produces a one-row frame — no `SchemaError`
is raised and a dataset is produced, refuting the claim. -/
theorem C7_schema_check_cex :
    isOkE (load_data_generic tableNoResourceID) = true
    ∧ (load_data_generic tableNoResourceID).toOption.map (fun f => f.rows.length) = some 1 := by
  decide

/-- C7 (amended): `load_data` performs no schema validation of the required
columns (`ResourceID`, `MonthlyCostUSD`, `Tagged`, `Service`, `Region`) and
no `SchemaError` exists; loading succeeds exactly when the five tag-field
columns are present among the headers (their absence surfaces as a pandas
`KeyError` at the completeness computation, the only column access made). -/
theorem C7_schema_check_amended (t : GenericTable) :
    isOkE (load_data_generic t) = tag_fields.all (fun f => t.headers.contains f) := by
  unfold load_data_generic
  split
  next hcond => rw [hcond]; rfl
  next hcond =>
    have hf : tag_fields.all (fun f => t.headers.contains f) = false := by
      cases hx : tag_fields.all (fun f => t.headers.contains f) with
      | true => exact absurd hx hcond
      | false => rfl
    rw [hf]
    rfl

/-! ### Round-trip claim (C8) -/

/-- A present cell survives a round trip iff it is not an NA token. -/
def cellClean : Option String → Bool
  | none => true
  | some s => decide (s ∉ naValues)

/-- The nine textual cells of a row (every data column except the cost). -/
def stringCells (r : Row) : List (Option String) :=
  [r.resourceID, r.service, r.region, r.tagged,
   r.department, r.project, r.environment, r.owner, r.costCenter]

/-- No present textual cell of the row is an NA token. -/
def rowClean (r : Row) : Bool :=
  (stringCells r).all cellClean

/-- A row with its derived columns reset (the shape `read_csv` delivers
before the completeness columns are assigned). -/
def eraseDerived (r : Row) : Row :=
  { r with score := 0, pct := 0 }

/-- Exporting and re-parsing a clean cell is the identity. -/
lemma parse_export_cell (o : Option String) (h : cellClean o = true) :
    parseCell (exportCell o) = o := by
  cases o with
  | none => rfl
  | some s =>
      have hs : s ∉ naValues := of_decide_eq_true h
      show parseCell s = some s
      unfold parseCell
      rw [if_neg hs]

/-- Exporting and re-parsing a clean row reproduces its data columns. -/
lemma parse_export_clean (r : Row) (h : rowClean r = true) :
    parseRawRow (exportRow r) = eraseDerived r := by
  unfold rowClean stringCells at h
  simp only [List.all_cons, List.all_nil, Bool.and_eq_true, Bool.and_true] at h
  obtain ⟨h1, h2, h3, h4, h5, h6, h7, h8, h9⟩ := h
  exact Row.ext (parse_export_cell _ h1) (parse_export_cell _ h2) (parse_export_cell _ h3) rfl
    (parse_export_cell _ h4) (parse_export_cell _ h5) (parse_export_cell _ h6)
    (parse_export_cell _ h7) (parse_export_cell _ h8) (parse_export_cell _ h9) rfl rfl

/-- Recomputing the derived columns of a data-only row restores a row whose
stored derived columns were consistent. -/
lemma recompute_erase (r : Row) (h1 : r.score = countPresent r)
    (h2 : r.pct = (countPresent r : ℚ) / 5 * 100) :
    recomputeScore (eraseDerived r) = r := by
  unfold recomputeScore eraseDerived
  exact Row.ext rfl rfl rfl rfl rfl rfl rfl rfl rfl rfl h1.symm h2.symm

/-- The merged row for the single-space department edit. -/
def rowSpaceDept : Row :=
  { rowR1Remediated with department := some " " }

/-- What that row becomes after export and re-load: the single-space
department is an NA token, so it returns as absent and the score drops. -/
def rowReloadSpace : Row :=
  { rowR1Remediated with department := none, score := 4, pct := 80 }

/-- Concrete evaluation: loading the blank-tags record gives `rowR1`. -/
lemma evalLoadR1 : load_data [rawR1] = [rowR1] := by
  simp +decide [load_data, recomputeScores, recomputeScore, dropDuplicates, dropDupAux,
    parseRawRow, parseCell, naValues, countPresent, tagFieldValues, rawR1, rowR1,
    List.countP_cons, List.countP_nil]
  try norm_num

/-- Concrete evaluation: merging `rowR1` with the single-space-department
edit stores the single space as a present department. -/
lemma evalMergeSpace : mergeRemediation [rowR1] [editSpaceDept] = [rowSpaceDept] := by
  simp +decide [mergeRemediation, show_remediation_merge, mergeLoop, applyEditToFrame, applyEditRow,
    idMatches, overwriteCols, recomputeScores, recomputeScore, countPresent, tagFieldValues,
    rowR1, editSpaceDept, editFull, rowSpaceDept, rowR1Remediated,
    List.countP_cons, List.countP_nil]
  try norm_num

/-- Concrete evaluation: exporting and re-loading the merged row turns its
single-space department into an absent value and rescores the row. -/
lemma evalReloadSpace : load_data (export_csv [rowSpaceDept]) = [rowReloadSpace] := by
  simp +decide [load_data, export_csv, exportRow, exportCell, recomputeScores, recomputeScore,
    dropDuplicates, dropDupAux, parseRawRow, parseCell, naValues, countPresent, tagFieldValues,
    rowSpaceDept, rowR1Remediated, rowReloadSpace, List.countP_cons, List.countP_nil]
  try norm_num

/-- C8 counterexample: the round trip is not the identity on every dataset
produced by Load or Merge.  Merging the loaded dataset with an edit whose
`Department` is the single-space string yields a dataset that re-loads, after
export, with that department absent and a lower score — `Load(Export(D)) ≠ D`
for this merge-produced `D`. -/
theorem C8_roundtrip_cex :
    load_data (export_csv (mergeRemediation (load_data [rawR1]) [editSpaceDept]))
      ≠ mergeRemediation (load_data [rawR1]) [editSpaceDept] := by
  rw [evalLoadR1, evalMergeSpace, evalReloadSpace]
  decide

/-- C8 (amended): `Load(Export(D)) = D` holds for every dataset `D` whose
present textual cells avoid the loader's NA tokens, whose derived columns
are consistent with its tag fields, and whose rows are pairwise distinct on
the data columns.  Datasets produced by `load_data` satisfy all three;
a merge can break the first (an edit storing an NA token as a value) or the
third (an edit making two rows identical), as the counterexample shows. -/
theorem C8_roundtrip_amended (D : List Row)
    (hclean : ∀ r ∈ D, rowClean r = true)
    (hscore : ∀ r ∈ D, r.score = countPresent r ∧ r.pct = (countPresent r : ℚ) / 5 * 100)
    (hdup : dropDuplicates (D.map eraseDerived) = D.map eraseDerived) :
    load_data (export_csv D) = D := by
  unfold load_data export_csv
  rw [List.map_map]
  have hmap : D.map (parseRawRow ∘ exportRow) = D.map eraseDerived :=
    List.map_congr_left (fun r hr => parse_export_clean r (hclean r hr))
  rw [hmap, hdup]
  unfold recomputeScores
  rw [List.map_map]
  have hid : D.map (recomputeScore ∘ eraseDerived) = D.map id :=
    List.map_congr_left (fun r hr => recompute_erase r (hscore r hr).1 (hscore r hr).2)
  rw [hid, List.map_id]

/-- C8 witness: the round trip at the concrete loaded dataset `[rowR1]`. -/
theorem C8_roundtrip_witness : load_data (export_csv [rowR1]) = [rowR1] :=
  C8_roundtrip_amended [rowR1]
    (by decide)
    (by
      intro r hr
      rw [List.mem_singleton] at hr
      subst hr
      exact ⟨rfl, by norm_num [rowR1, countPresent, tagFieldValues]⟩)
    rfl

end CloudMart
